import Mathlib

/-!
Shallow embedding of the prompt-firewall core (src/firewall/: models.py,
detector.py, policy.py, sanitizer.py, core.py, logger.py) together with
theorems settling the specification claims.

Modelling conventions: Python floats become rationals (all arithmetic in
this code is exact decimal comparison), Python `None`/values become
`Option`, dictionaries of known shape become structures, regular
expressions become an explicit pattern AST executed by a fuel-bounded
backtracking matcher with Python `re` semantics (leftmost match,
left-biased alternation, greedy quantifiers, word boundaries and the
end-of-string anchor that also matches before a final newline).
Timestamps, UUIDs and file I/O are outside the embedding: the audit
ledger's files are modelled as append-only lists, and a record's identity
is its position.
-/

set_option maxRecDepth 100000

attribute [local semireducible] Rat.mul Rat.add Rat.sub Rat.inv Rat.ofScientific

namespace Firewall

/-- `ThreatLevel` enum (models.py). -/
inductive ThreatLevel where
  | safe
  | low
  | medium
  | high
  | critical
deriving DecidableEq, Repr

/-- `Action` enum (models.py). -/
inductive Act where
  | allow
  | block
  | sanitize
  | log
  | alert
deriving DecidableEq, Repr

/-- `DetectionResult` (models.py); the free-form `details` dict and
default-valued fields are carried as shown, timestamps omitted. -/
structure DetectionResult where
  threat_score : ℚ
  threat_level : ThreatLevel
  is_malicious : Bool
  categories : List String
  confidence : ℚ
deriving DecidableEq, Repr

/-- `PolicyMatch` (models.py). -/
structure PolicyMatch where
  policy_name : String
  action : Act
  severity : ThreatLevel
  reason : String
  metadata : List (String × ℚ)
deriving DecidableEq, Repr

/-- `FirewallRequest` (models.py); timestamp omitted. -/
structure FirewallRequest where
  prompt : String
  user_id : Option String
  session_id : Option String
deriving DecidableEq, Repr

/-- `FirewallResponse` (models.py); timestamp and processing time omitted
(wall-clock values). -/
structure FirewallResponse where
  action : Act
  allowed : Bool
  original_prompt : String
  sanitized_prompt : Option String
  threat_score : ℚ
  threat_level : ThreatLevel
  detection : DetectionResult
  policy_match : PolicyMatch
  message : String
deriving DecidableEq, Repr

/-! ### Detector (detector.py, pattern fallback path) -/

/-- Substring test: does `n` occur at the start of `h`? -/
def listStarts : List Char → List Char → Bool
  | [], _ => true
  | _ :: _, [] => false
  | a :: as, b :: bs => a = b && listStarts as bs

/-- Substring test, modelling Python `n in h`. -/
def listSub (n : List Char) : List Char → Bool
  | [] => listStarts n []
  | c :: t => listStarts n (c :: t) || listSub n t

/-- Python `needle in hay` on strings. -/
def strHasSub (needle hay : String) : Bool :=
  listSub needle.toList hay.toList

/-- Python `str.lower()` (ASCII case folding). -/
def pyLower (s : String) : String :=
  String.mk (s.toList.map Char.toLower)

/-- `self.malicious_patterns` (detector.py). -/
def maliciousPatterns : List String :=
  ["ignore previous instructions",
   "ignore all previous",
   "disregard",
   "forget everything",
   "new instructions",
   "system prompt",
   "you are now",
   "roleplay as",
   "jailbreak",
   "DAN mode",
   "developer mode"]

/-- Number of entries of `malicious_patterns` found in the lower-cased
prompt: `sum(1 for pattern in self.malicious_patterns if pattern in prompt_lower)`. -/
def patternMatchCount (prompt : String) : Nat :=
  maliciousPatterns.countP (fun p => strHasSub p (pyLower prompt))

/-- The threat-level step function of `_detect_with_patterns`
(detector.py lines 125-135). -/
def threatLevelOfScore (threat_score : ℚ) : ThreatLevel :=
  if 80 ≤ threat_score then ThreatLevel.critical
  else if 60 ≤ threat_score then ThreatLevel.high
  else if 40 ≤ threat_score then ThreatLevel.medium
  else if 20 ≤ threat_score then ThreatLevel.low
  else ThreatLevel.safe

/-- `ThreatDetector._detect_with_patterns` (detector.py). -/
def detectWithPatterns (prompt : String) : DetectionResult :=
  let prompt_lower := pyLower prompt
  let matchCount := maliciousPatterns.countP (fun p => strHasSub p prompt_lower)
  let threat_score : ℚ := min ((matchCount : ℚ) * 20) 100
  let level := threatLevelOfScore threat_score
  let is_malicious := decide (40 ≤ threat_score)
  let cats1 := if strHasSub "ignore" prompt_lower || strHasSub "disregard" prompt_lower
    then ["prompt_injection"] else []
  let cats2 := if strHasSub "roleplay" prompt_lower || strHasSub "you are now" prompt_lower
    then ["jailbreak"] else []
  let cats3 := if strHasSub "system" prompt_lower
    then ["system_manipulation"] else []
  { threat_score := threat_score
    threat_level := level
    is_malicious := is_malicious
    categories := cats1 ++ cats2 ++ cats3
    confidence := 7/10 }

/-! ### Policy engine (policy.py) -/

/-- A constructed `Policy` (policy.py class `Policy`): the constructor has
already resolved the config defaults, so all fields are concrete.
`conditionCategories` is `conditions["categories"]` when that key exists. -/
structure Policy where
  name : String
  enabled : Bool
  action : Act
  severity : ThreatLevel
  threshold : ℚ
  description : String
  conditionCategories : Option (List String)
deriving DecidableEq, Repr

/-- The `severity_order` table in `Policy.matches`. -/
def levelOrder : ThreatLevel → Nat
  | ThreatLevel.safe => 0
  | ThreatLevel.low => 1
  | ThreatLevel.medium => 2
  | ThreatLevel.high => 3
  | ThreatLevel.critical => 4

/-- `Policy.matches` (policy.py). -/
def Policy.matchesD (p : Policy) (detection : DetectionResult) : Bool :=
  if !p.enabled then false
  else if detection.threat_score / 100 < p.threshold then false
  else if levelOrder detection.threat_level < levelOrder p.severity then false
  else
    match p.conditionCategories with
    | none => true
    | some required_cats => required_cats.any (fun cat => detection.categories.contains cat)

/-- `Policy.to_match` (policy.py); `self.description or f"Matched policy: ..."`
uses the description unless it is the empty string (falsy). -/
def Policy.toMatch (p : Policy) (detection : DetectionResult) : PolicyMatch :=
  { policy_name := p.name
    action := p.action
    severity := p.severity
    reason := if p.description = "" then "Matched policy: " ++ p.name else p.description
    metadata := [("threshold", p.threshold), ("detection_score", detection.threat_score)] }

/-- The synthetic match returned when no policy matches
(`PolicyEngine.evaluate`, policy.py). -/
def defaultAllowMatch : PolicyMatch :=
  { policy_name := "default_allow"
    action := Act.allow
    severity := ThreatLevel.safe
    reason := "No policy matched - default allow"
    metadata := [] }

/-- `PolicyEngine.evaluate` (policy.py): first matching policy wins, else
the synthetic default-allow match. -/
def evaluate (policies : List Policy) (detection : DetectionResult) : PolicyMatch :=
  match policies.find? (fun p => p.matchesD detection) with
  | some p => p.toMatch detection
  | none => defaultAllowMatch

/-- One entry of the structured rule source (a YAML policy dict): each
field optional, defaults resolved by the `Policy` constructor. -/
structure PolicyConfig where
  name : Option String
  enabled : Option Bool
  action : Option String
  severity : Option String
  threshold : Option ℚ
  description : Option String
  categories : Option (List String)
deriving DecidableEq, Repr

/-- `Action(value)` (models.py): fails on an unknown value. -/
def parseAction : String → Option Act
  | "allow" => some Act.allow
  | "block" => some Act.block
  | "sanitize" => some Act.sanitize
  | "log" => some Act.log
  | "alert" => some Act.alert
  | _ => none

/-- `ThreatLevel(value)` (models.py): fails on an unknown value. -/
def parseLevel : String → Option ThreatLevel
  | "safe" => some ThreatLevel.safe
  | "low" => some ThreatLevel.low
  | "medium" => some ThreatLevel.medium
  | "high" => some ThreatLevel.high
  | "critical" => some ThreatLevel.critical
  | _ => none

/-- The `Policy.__init__` constructor (policy.py): resolves defaults and
fails (raises) exactly when the action or severity value is invalid. -/
def policyOfConfig (c : PolicyConfig) : Option Policy := do
  let a ← parseAction (c.action.getD "log")
  let s ← parseLevel (c.severity.getD "medium")
  pure
    { name := c.name.getD "unnamed"
      enabled := c.enabled.getD true
      action := a
      severity := s
      threshold := c.threshold.getD (1/2)
      description := c.description.getD ""
      conditionCategories := c.categories }

/-- Construct every policy of a config list, failing if any constructor
fails (the loop in `load_policies`). -/
def policiesOfConfigs : List PolicyConfig → Option (List Policy)
  | [] => some []
  | c :: cs => do
    let p ← policyOfConfig c
    let ps ← policiesOfConfigs cs
    pure (p :: ps)

/-- `PolicyEngine._load_default_policies` (policy.py): the built-in
four-rule default set, in source order. -/
def defaultPolicies : List Policy :=
  [{ name := "block_critical_threats", enabled := true, action := Act.block
     severity := ThreatLevel.critical, threshold := 85/100
     description := "Block critical threats immediately", conditionCategories := none },
   { name := "sanitize_high_threats", enabled := true, action := Act.sanitize
     severity := ThreatLevel.high, threshold := 65/100
     description := "Sanitize high-severity prompts", conditionCategories := none },
   { name := "log_medium_threats", enabled := true, action := Act.log
     severity := ThreatLevel.medium, threshold := 40/100
     description := "Log medium-severity prompts", conditionCategories := none },
   { name := "allow_safe_prompts", enabled := true, action := Act.allow
     severity := ThreatLevel.safe, threshold := 0
     description := "Allow safe prompts", conditionCategories := none }]

/-- `PolicyEngine.load_policies` (policy.py). `src = none` models an
unreadable or unparsable rule source (the `open`/`yaml.safe_load` step
raised); an individual bad entry makes `Policy(...)` raise mid-loop. In
both cases the `except` branch runs `_load_default_policies`, so the
resulting active set is the defaults — the previous set `prev` is
discarded on success and on failure alike. -/
def loadPolicies (prev : List Policy) (src : Option (List PolicyConfig)) : List Policy :=
  match src with
  | none => defaultPolicies
  | some cfgs =>
    match policiesOfConfigs cfgs with
    | some ps => ps
    | none => defaultPolicies

/-- Does a load attempt fail (unreadable source, or some entry's
constructor raises)? -/
def loadFails (src : Option (List PolicyConfig)) : Bool :=
  match src with
  | none => true
  | some cfgs => (policiesOfConfigs cfgs).isNone

/-! ### Audit logger (logger.py) -/

/-- The in-memory `self.stats` dict (logger.py). -/
structure LoggerStats where
  total_requests : Nat
  blocked : Nat
  sanitized : Nat
  allowed : Nat
  threats_detected : Nat
deriving DecidableEq, Repr

/-- An `AuditLog` entry (models.py) as flattened for the audit file;
request id (a UUID) and timestamp omitted. -/
structure AuditEntry where
  user_id : Option String
  session_id : Option String
  prompt : String
  action : Act
  threat_score : ℚ
  threat_level : ThreatLevel
  policy_matched : String
  sanitizedFlag : Bool
deriving DecidableEq, Repr

/-- Logger state: stats plus the two append-only record files
(audit.jsonl and threats.jsonl), modelled as lists of entries. -/
structure LoggerState where
  stats : LoggerStats
  auditRecords : List AuditEntry
  threatRecords : List AuditEntry
deriving DecidableEq, Repr

/-- The logger's initial state (`AuditLogger.__init__`). -/
def initialLogger : LoggerState :=
  { stats := { total_requests := 0, blocked := 0, sanitized := 0, allowed := 0, threats_detected := 0 }
    auditRecords := []
    threatRecords := [] }

/-- `AuditLogger.log_request` (logger.py): build one entry, append it to
the audit file (and to the threats file when the level is high/critical),
then update the counters. -/
def logRequest (st : LoggerState) (request : FirewallRequest)
    (response : FirewallResponse) : LoggerState :=
  let entry : AuditEntry :=
    { user_id := request.user_id
      session_id := request.session_id
      prompt := request.prompt
      action := response.action
      threat_score := response.threat_score
      threat_level := response.threat_level
      policy_matched := response.policy_match.policy_name
      sanitizedFlag := response.sanitized_prompt.isSome }
  let isThreat : Bool :=
    response.threat_level = ThreatLevel.high || response.threat_level = ThreatLevel.critical
  let s1 := { st.stats with total_requests := st.stats.total_requests + 1 }
  -- the if/elif chain on the action
  let s2 :=
    match response.action with
    | Act.block => { s1 with blocked := s1.blocked + 1 }
    | Act.sanitize => { s1 with sanitized := s1.sanitized + 1 }
    | Act.allow => { s1 with allowed := s1.allowed + 1 }
    | _ => s1
  let s3 := if isThreat then { s2 with threats_detected := s2.threats_detected + 1 } else s2
  { stats := s3
    auditRecords := st.auditRecords ++ [entry]
    threatRecords := st.threatRecords ++ (if isThreat then [entry] else []) }

/-- The dict returned by `AuditLogger.get_stats` (logger.py): the raw
counters plus the three derived rates, each 0 when no requests were seen. -/
structure StatsReport where
  total_requests : Nat
  blocked : Nat
  sanitized : Nat
  allowed : Nat
  threats_detected : Nat
  block_rate : ℚ
  sanitize_rate : ℚ
  threat_rate : ℚ
deriving DecidableEq, Repr

/-- `AuditLogger.get_stats` (logger.py). -/
def getStats (st : LoggerState) : StatsReport :=
  let s := st.stats
  let total := s.total_requests
  { total_requests := s.total_requests
    blocked := s.blocked
    sanitized := s.sanitized
    allowed := s.allowed
    threats_detected := s.threats_detected
    block_rate := if 0 < total then (s.blocked : ℚ) / (total : ℚ) * 100 else 0
    sanitize_rate := if 0 < total then (s.sanitized : ℚ) / (total : ℚ) * 100 else 0
    threat_rate := if 0 < total then (s.threats_detected : ℚ) / (total : ℚ) * 100 else 0 }

/-- Fold `log_request` over a sequence of request/response pairs starting
from a fresh logger. -/
def runLog (pairs : List (FirewallRequest × FirewallResponse)) : LoggerState :=
  pairs.foldl (fun st rr => logRequest st rr.1 rr.2) initialLogger

/-! ### A small regex engine with Python `re` semantics

The sanitizer's patterns (sanitizer.py) are encoded as `RX` values and
executed by a fuel-bounded backtracking matcher: alternation is
left-biased, quantifiers are greedy, `\b` is a word boundary on the
original text, and `$` matches at the end of input or just before a final
newline (no MULTILINE flag in the source). All the source's patterns only
ever match non-empty text, so the fuel bounds below are never reached. -/

/-- The characters matched by `\s` and stripped by `str.strip()`
(ASCII range). -/
def isWsChar (c : Char) : Bool :=
  c = ' ' || c = '\t' || c = '\n' || c = '\r' || c = Char.ofNat 11 || c = Char.ofNat 12

/-- Pattern syntax: empty, character class, concatenation, alternation,
Kleene star, word boundary `\b`, end anchor `$`. -/
inductive RX where
  | eps
  | cls (p : Char → Bool)
  | cat (a b : RX)
  | alt (a b : RX)
  | star (r : RX)
  | bnd
  | eos

/-- `\w` for the purposes of `\b`. -/
def wordChar (c : Char) : Bool := c.isAlphanum || c = '_'

/-- Is the gap between `prev` and the head of `s` a `\b` boundary? -/
def atWordBoundary (prev : Option Char) (s : List Char) : Bool :=
  let l := match prev with | none => false | some c => wordChar c
  let r := match s with | [] => false | c :: _ => wordChar c
  l != r

/-- Python `$` without MULTILINE: end of input, or just before a final
newline. -/
def atPyEnd (s : List Char) : Bool :=
  match s with
  | [] => true
  | [c] => c = '\n'
  | _ => false

/-- Backtracking matcher in continuation style. The continuation receives
the last consumed character (for `\b`) and the remaining input; the first
success in Python priority order (left-biased `alt`, greedy `star`) wins. -/
def mrun : Nat → RX → Option Char → List Char → (Option Char → List Char → Option (List Char)) → Option (List Char)
  | 0, _, _, _, _ => none
  | _ + 1, RX.eps, prev, s, k => k prev s
  | _ + 1, RX.cls p, _, s, k =>
    match s with
    | [] => none
    | c :: rest => if p c then k (some c) rest else none
  | f + 1, RX.cat a b, prev, s, k =>
    mrun f a prev s (fun p2 s2 => mrun f b p2 s2 k)
  | f + 1, RX.alt a b, prev, s, k =>
    (mrun f a prev s k) <|> (mrun f b prev s k)
  | f + 1, RX.star r, prev, s, k =>
    (mrun f r prev s (fun p2 s2 => mrun f (RX.star r) p2 s2 k)) <|> k prev s
  | _ + 1, RX.bnd, prev, s, k => if atWordBoundary prev s then k prev s else none
  | _ + 1, RX.eos, prev, s, k => if atPyEnd s then k prev s else none

/-- Fuel that comfortably bounds the matcher's recursion depth for the
sanitizer's patterns. -/
def matchFuel (s : List Char) : Nat := 200 * (s.length + 5)

/-- Try to match `r` at the current position; on success return the
remaining input after the match. -/
def findAt (r : RX) (prev : Option Char) (s : List Char) : Option (List Char) :=
  mrun (matchFuel s) r prev s (fun _ rest => some rest)

/-- Scan for a match at any position (Python `re.search` as a Boolean). -/
def searchAux (r : RX) : Option Char → List Char → Bool
  | prev, [] => (findAt r prev []).isSome
  | prev, c :: rest => (findAt r prev (c :: rest)).isSome || searchAux r (some c) rest

/-- `re.search(pattern, s) is not None`. -/
def rsearch (r : RX) (s : List Char) : Bool := searchAux r none s

/-- Replace every non-overlapping leftmost match (Python `re.sub`). The
`prev` argument tracks the original character before the current
position, as `\b` looks at the original text. A zero-width match (which
the sanitizer's patterns cannot produce) inserts the replacement and
advances one character. -/
def rsubAux (r : RX) (repl : List Char) : Nat → Option Char → List Char → List Char
  | 0, _, s => s
  | f + 1, prev, s =>
    match findAt r prev s with
    | some rest =>
      let consumed := s.length - rest.length
      if consumed = 0 then
        match s with
        | [] => repl
        | c :: rest2 => repl ++ c :: rsubAux r repl f (some c) rest2
      else
        repl ++ rsubAux r repl f ((s.take consumed).getLast?) rest
    | none =>
      match s with
      | [] => []
      | c :: rest => c :: rsubAux r repl f (some c) rest

/-- `re.sub(pattern, repl, s)`. -/
def rsub (r : RX) (repl : List Char) (s : List Char) : List Char :=
  rsubAux r repl (s.length + 2) none s

/-! ### Pattern builders -/

/-- Concatenate a list of patterns. -/
def rcat (l : List RX) : RX := l.foldr RX.cat RX.eps

/-- Case-sensitive literal. -/
def rlit (s : String) : RX := rcat (s.toList.map (fun c => RX.cls (fun x => x = c)))

/-- Case-insensitive literal (the source compiles the instruction and SQL
families with `re.IGNORECASE`). -/
def rlitCI (s : String) : RX := rcat (s.toList.map (fun c => RX.cls (fun x => x.toLower = c.toLower)))

/-- `?` (greedy). -/
def ropt (r : RX) : RX := RX.alt r RX.eps

/-- `+` (greedy). -/
def rplus (r : RX) : RX := RX.cat r (RX.star r)

/-- Exactly `n` copies. -/
def rrep : Nat → RX → RX
  | 0, _ => RX.eps
  | n + 1, r => RX.cat r (rrep n r)

/-- `{n,}` (greedy). -/
def rmin (n : Nat) (r : RX) : RX := RX.cat (rrep n r) (RX.star r)

/-- `\s`. -/
def wsC : RX := RX.cls isWsChar

/-- `\d`. -/
def digC : RX := RX.cls Char.isDigit

/-- The apostrophe character (used by the first SQL pattern). -/
def apoChar : Char := Char.ofNat 39

/-! ### Sanitizer (sanitizer.py) -/

/-- One `(pattern, replacement)` pair of a sanitizer rule family; `src`
carries the Python pattern text used in the change messages. -/
structure SubRule where
  rx : RX
  repl : List Char
  src : String

/-- `(previous|prior|above)`. -/
def altPPA : RX := RX.alt (rlitCI "previous") (RX.alt (rlitCI "prior") (rlitCI "above"))

/-- `self.instruction_patterns` (sanitizer.py), applied with IGNORECASE. -/
def instructionPatterns : List SubRule :=
  [{ rx := rcat [rlitCI "ignore", rplus wsC, ropt (rcat [rlitCI "all", rplus wsC]),
       altPPA, rplus wsC, rlitCI "instruction", ropt (rlitCI "s")]
     repl := "[INSTRUCTION_REMOVED]".toList
     src := "ignore\\s+(all\\s+)?(previous|prior|above)\\s+instructions?" },
   { rx := rcat [rlitCI "disregard", rplus wsC, ropt (rcat [rlitCI "all", rplus wsC]), altPPA]
     repl := "[INSTRUCTION_REMOVED]".toList
     src := "disregard\\s+(all\\s+)?(previous|prior|above)" },
   { rx := rcat [rlitCI "forget", rplus wsC,
       RX.alt (rlitCI "everything") (RX.alt (rlitCI "all") (rlitCI "what"))]
     repl := "[INSTRUCTION_REMOVED]".toList
     src := "forget\\s+(everything|all|what)" },
   { rx := rcat [rlitCI "new", rplus wsC, rlitCI "instruction", ropt (rlitCI "s"), rlitCI ":"]
     repl := "[INSTRUCTION_REMOVED]".toList
     src := "new\\s+instructions?:" },
   { rx := rcat [rlitCI "system", rplus wsC, rlitCI "prompt:"]
     repl := "[SYSTEM_REMOVED]".toList
     src := "system\\s+prompt:" },
   { rx := rcat [rlitCI "you", rplus wsC, rlitCI "are", rplus wsC, rlitCI "now", rplus wsC]
     repl := "[ROLE_REMOVED] ".toList
     src := "you\\s+are\\s+now\\s+" },
   { rx := rcat [rlitCI "roleplay", rplus wsC, rlitCI "as"]
     repl := "[ROLEPLAY_REMOVED]".toList
     src := "roleplay\\s+as" },
   { rx := rcat [rlitCI "pretend", rplus wsC,
       RX.alt (rcat [rlitCI "you", rplus wsC, rlitCI "are"]) (rcat [rlitCI "to", rplus wsC, rlitCI "be"])]
     repl := "[PRETEND_REMOVED]".toList
     src := "pretend\\s+(you\\s+are|to\\s+be)" },
   { rx := rcat [rlitCI "DAN", rplus wsC, rlitCI "mode"]
     repl := "[MODE_REMOVED]".toList
     src := "DAN\\s+mode" },
   { rx := rcat [rlitCI "developer", rplus wsC, rlitCI "mode"]
     repl := "[MODE_REMOVED]".toList
     src := "developer\\s+mode" }]

/-- `[A-Za-z0-9._%+-]`. -/
def emailLocalC : RX := RX.cls (fun c => c.isAlphanum || c = '.' || c = '_' || c = '%' || c = '+' || c = '-')

/-- `[A-Za-z0-9.-]`. -/
def emailDomainC : RX := RX.cls (fun c => c.isAlphanum || c = '.' || c = '-')

/-- `[A-Z|a-z]` (the source's class literally includes the pipe). -/
def emailTldC : RX := RX.cls (fun c => c.isAlpha || c = '|')

/-- `[\s-]`. -/
def wsDashC : RX := RX.cls (fun c => isWsChar c || c = '-')

/-- `[-.]`. -/
def dashDotC : RX := RX.cls (fun c => c = '-' || c = '.')

/-- `[a-zA-Z0-9]`. -/
def alnumC : RX := RX.cls (fun c => c.isAlphanum)

/-- `[a-zA-Z0-9_-]`. -/
def tokenC : RX := RX.cls (fun c => c.isAlphanum || c = '_' || c = '-')

/-- `self.pii_patterns` (sanitizer.py), applied case-sensitively. -/
def piiPatterns : List SubRule :=
  [{ rx := rcat [RX.bnd, rrep 3 digC, rlit "-", rrep 2 digC, rlit "-", rrep 4 digC, RX.bnd]
     repl := "[SSN_REDACTED]".toList
     src := "\\b\\d\x7b3\x7d-\\d\x7b2\x7d-\\d\x7b4\x7d\\b" },
   { rx := rcat [RX.bnd, rrep 9 digC, RX.bnd]
     repl := "[SSN_REDACTED]".toList
     src := "\\b\\d\x7b9\x7d\\b" },
   { rx := rcat [RX.bnd, rrep 4 digC, ropt wsDashC, rrep 4 digC, ropt wsDashC,
       rrep 4 digC, ropt wsDashC, rrep 4 digC, RX.bnd]
     repl := "[CARD_REDACTED]".toList
     src := "\\b\\d\x7b4\x7d[\\s-]?\\d\x7b4\x7d[\\s-]?\\d\x7b4\x7d[\\s-]?\\d\x7b4\x7d\\b" },
   { rx := rcat [RX.bnd, rplus emailLocalC, rlit "@", rplus emailDomainC, rlit ".",
       rmin 2 emailTldC, RX.bnd]
     repl := "[EMAIL_REDACTED]".toList
     src := "\\b[A-Za-z0-9._%+-]+@[A-Za-z0-9.-]+\\.[A-Z|a-z]\x7b2,\x7d\\b" },
   { rx := rcat [RX.bnd, rrep 3 digC, ropt dashDotC, rrep 3 digC, ropt dashDotC,
       rrep 4 digC, RX.bnd]
     repl := "[PHONE_REDACTED]".toList
     src := "\\b\\d\x7b3\x7d[-.]?\\d\x7b3\x7d[-.]?\\d\x7b4\x7d\\b" },
   { rx := rcat [rlit "(", rrep 3 digC, rlit ")", RX.star wsC, rrep 3 digC,
       ropt dashDotC, rrep 4 digC]
     repl := "[PHONE_REDACTED]".toList
     src := "\\(\\d\x7b3\x7d\\)\\s*\\d\x7b3\x7d[-.]?\\d\x7b4\x7d" },
   { rx := rcat [rlit "sk-", rmin 32 alnumC]
     repl := "[API_KEY_REDACTED]".toList
     src := "sk-[a-zA-Z0-9]\x7b32,\x7d" },
   { rx := rmin 32 tokenC
     repl := "[TOKEN_REDACTED]".toList
     src := "[a-zA-Z0-9_-]\x7b32,\x7d" }]

/-- `self.sql_patterns` (sanitizer.py), applied with IGNORECASE. -/
def sqlPatterns : List SubRule :=
  [{ rx := rcat [RX.cls (fun c => c = apoChar), ropt (rlit ";"), RX.star wsC,
       RX.alt (rlitCI "DROP") (RX.alt (rlitCI "DELETE") (RX.alt (rlitCI "INSERT")
         (RX.alt (rlitCI "UPDATE") (rlitCI "SELECT")))), rplus wsC]
     repl := "[SQL_REMOVED] ".toList
     src := String.mk (apoChar :: ";?\\s*(DROP|DELETE|INSERT|UPDATE|SELECT)\\s+".toList) },
   { rx := rcat [RX.alt (rlitCI "OR") (rlitCI "AND"), rplus wsC, rlit "1",
       RX.star wsC, rlit "=", RX.star wsC, rlit "1"]
     repl := "[SQL_REMOVED]".toList
     src := "(OR|AND)\\s+1\\s*=\\s*1" },
   { rx := rcat [rlit "--", RX.star wsC, RX.eos]
     repl := []
     src := "--\\s*$" }]

/-- `f"{pattern[:20]}"`. -/
def strTake (n : Nat) (s : String) : String := String.mk (s.toList.take n)

/-- Change message for a fired instruction rule. -/
def msgInstr (r : SubRule) : String := "Removed malicious instruction: " ++ r.src

/-- Change message for a fired PII rule. -/
def msgPii (r : SubRule) : String := "Redacted PII: " ++ strTake 20 r.src ++ "..."

/-- Change message for a fired SQL rule. -/
def msgSql (r : SubRule) : String := "Removed SQL injection: " ++ strTake 20 r.src ++ "..."

/-- One step of a rule family: `if re.search(...): sanitized = re.sub(...);
changes.append(...)`. -/
def applyRule (mkMsg : SubRule → String) (st : List Char × List String) (rule : SubRule) :
    List Char × List String :=
  if rsearch rule.rx st.1 then (rsub rule.rx rule.repl st.1, st.2 ++ [mkMsg rule]) else st

/-- Run a whole rule family in list order. -/
def runFamily (fam : List SubRule) (mkMsg : SubRule → String)
    (st : List Char × List String) : List Char × List String :=
  fam.foldl (applyRule mkMsg) st

/-- The single pass of `re.sub(r"\s+", " ", ...)`: collapse each maximal
whitespace run to one space. The flag records whether the previous
character was part of a run already emitted. -/
def collapseWsAux : Bool → List Char → List Char
  | _, [] => []
  | prevWs, c :: rest =>
    if isWsChar c then
      if prevWs then collapseWsAux true rest
      else ' ' :: collapseWsAux true rest
    else c :: collapseWsAux false rest

/-- Drop trailing whitespace. -/
def dropTrailWs : List Char → List Char
  | [] => []
  | c :: rest =>
    match dropTrailWs rest with
    | [] => if isWsChar c then [] else [c]
    | r => c :: r

/-- Python `str.strip()`. -/
def stripWs (l : List Char) : List Char := dropTrailWs (l.dropWhile isWsChar)

/-- `re.sub(r"\s+", " ", sanitized).strip()` (sanitizer.py lines 96-97). -/
def cleanWs (l : List Char) : List Char := stripWs (collapseWsAux false l)

/-- A rule family behind its toggle (`if remove_pii: ...`). -/
def stepFam (b : Bool) (fam : List SubRule) (mkMsg : SubRule → String)
    (st : List Char × List String) : List Char × List String :=
  if b then runFamily fam mkMsg st else st

/-- The rule-application phase of `PromptSanitizer.sanitize`: the three
families in order, PII and SQL behind their toggles. -/
def sanitizeSt (prompt : String) (remove_pii remove_sql : Bool) :
    List Char × List String :=
  stepFam remove_sql sqlPatterns msgSql
    (stepFam remove_pii piiPatterns msgPii
      (runFamily instructionPatterns msgInstr (prompt.toList, [])))

/-- `PromptSanitizer.sanitize` (sanitizer.py): rule families, then
whitespace collapse and trim. -/
def sanitize (prompt : String) (remove_pii remove_sql : Bool) : String × List String :=
  let st3 := sanitizeSt prompt remove_pii remove_sql
  (String.mk (cleanWs st3.1), st3.2)

/-! ### Orchestrator (core.py) -/

/-- `PromptFirewall._execute_action` (core.py): block, sanitize, or the
shared allow/log/alert fallthrough (which always records `Action.ALLOW`). -/
def executeAction (request : FirewallRequest) (detection : DetectionResult)
    (policy_match : PolicyMatch) : FirewallResponse :=
  if policy_match.action = Act.block then
    { action := Act.block
      allowed := false
      original_prompt := request.prompt
      sanitized_prompt := none
      threat_score := detection.threat_score
      threat_level := detection.threat_level
      detection := detection
      policy_match := policy_match
      message := "Request blocked due to security policy" }
  else if policy_match.action = Act.sanitize then
    let sc := sanitize request.prompt true true
    { action := Act.sanitize
      allowed := true
      original_prompt := request.prompt
      sanitized_prompt := some sc.1
      threat_score := detection.threat_score
      threat_level := detection.threat_level
      detection := detection
      policy_match := policy_match
      message := "Prompt sanitized: " ++ toString sc.2.length ++ " changes made" }
  else
    { action := Act.allow
      allowed := true
      original_prompt := request.prompt
      sanitized_prompt := none
      threat_score := detection.threat_score
      threat_level := detection.threat_level
      detection := detection
      policy_match := policy_match
      message := "Request allowed" }

/-- `PromptFirewall.check` (core.py) with the pattern-based detector and
a given active policy list: classify, evaluate, execute. Latency and the
audit side effect are outside the returned response. -/
def check (policies : List Policy) (prompt : String) : FirewallResponse :=
  let request : FirewallRequest := { prompt := prompt, user_id := none, session_id := none }
  let detection := detectWithPatterns prompt
  let policy_match := evaluate policies detection
  executeAction request detection policy_match

/-! ### Whitespace-normal-form predicates -/

/-- Every whitespace character is a plain space. -/
def allWsSpace : List Char → Bool
  | [] => true
  | c :: rest => (!isWsChar c || c = ' ') && allWsSpace rest

/-- The head, if any, is not whitespace. -/
def headNotWs : List Char → Bool
  | [] => true
  | c :: _ => !isWsChar c

/-- No two adjacent whitespace characters. -/
def noAdjWs : List Char → Bool
  | [] => true
  | c :: rest => (if isWsChar c then headNotWs rest else true) && noAdjWs rest

/-- The last character, if any, is not whitespace. -/
def lastNotWs : List Char → Bool
  | [] => true
  | [c] => !isWsChar c
  | _ :: rest => lastNotWs rest

/-! ### Concrete fixtures used by counterexamples and witnesses -/

/-- A benign classification result (score 0, safe). -/
def d0 : DetectionResult :=
  { threat_score := 0, threat_level := ThreatLevel.safe, is_malicious := false
    categories := [], confidence := 7/10 }

/-- A policy that sanitizes everything (enabled, severity safe,
threshold 0) — loadable through the YAML rule source. -/
def pSanAll : Policy :=
  { name := "sanitize_all", enabled := true, action := Act.sanitize
    severity := ThreatLevel.safe, threshold := 0, description := ""
    conditionCategories := none }

/-- A disabled policy (never matches). -/
def pOff : Policy :=
  { name := "off", enabled := false, action := Act.block
    severity := ThreatLevel.safe, threshold := 0, description := ""
    conditionCategories := none }

/-- An enabled catch-all policy with action block. -/
def pFirst : Policy :=
  { name := "first", enabled := true, action := Act.block
    severity := ThreatLevel.safe, threshold := 0, description := ""
    conditionCategories := none }

/-- An enabled catch-all policy with action allow. -/
def pSecond : Policy :=
  { name := "second", enabled := true, action := Act.allow
    severity := ThreatLevel.safe, threshold := 0, description := ""
    conditionCategories := none }

/-- A custom policy standing for a previously active non-default set. -/
def cePolicyCustom : Policy :=
  { name := "tenant_rules", enabled := true, action := Act.alert
    severity := ThreatLevel.low, threshold := 1/4, description := "tenant rule"
    conditionCategories := none }

/-- A malformed rule-source entry: its action value is unknown, so the
`Policy` constructor raises mid-load. -/
def ceBadConfig : PolicyConfig :=
  { name := some "broken", enabled := some true, action := some "nuke"
    severity := none, threshold := none, description := none, categories := none }

/-- A request fixture. -/
def ceReq : FirewallRequest := { prompt := "hi", user_id := none, session_id := none }

/-- A policy match with action alert. -/
def cePmAlert : PolicyMatch :=
  { policy_name := "alerter", action := Act.alert, severity := ThreatLevel.low
    reason := "r", metadata := [] }

/-- A policy match with action block. -/
def cePmBlock : PolicyMatch :=
  { policy_name := "blocker", action := Act.block, severity := ThreatLevel.critical
    reason := "r", metadata := [] }

/-- A verdict whose action is log (the logger accepts any verdict value). -/
def ceRespLog : FirewallResponse :=
  { action := Act.log, allowed := true, original_prompt := "hi"
    sanitized_prompt := none, threat_score := 50, threat_level := ThreatLevel.medium
    detection := d0, policy_match := cePmAlert, message := "" }

/-- The counter consistency invariant of the audit ledger. -/
def statsInv (st : LoggerState) : Prop :=
  st.stats.blocked + st.stats.sanitized + st.stats.allowed ≤ st.stats.total_requests

/-! ## Helper lemmas: the whitespace normalizer -/

theorem allWsSpace_collapse (b : Bool) (l : List Char) :
    allWsSpace (collapseWsAux b l) = true := by
  induction l generalizing b with
  | nil => rfl
  | cons c rest ih =>
    simp only [collapseWsAux]
    split
    · split
      · exact ih true
      · simpa [allWsSpace] using ih true
    · rename_i hc
      simpa [allWsSpace, hc] using ih false

theorem headNotWs_collapse_true (l : List Char) :
    headNotWs (collapseWsAux true l) = true := by
  induction l with
  | nil => rfl
  | cons c rest ih =>
    simp only [collapseWsAux]
    split
    · simpa using ih
    · rename_i hc
      simp [headNotWs, hc]

theorem noAdjWs_collapse (b : Bool) (l : List Char) :
    noAdjWs (collapseWsAux b l) = true := by
  induction l generalizing b with
  | nil => rfl
  | cons c rest ih =>
    simp only [collapseWsAux]
    split
    · split
      · exact ih true
      · simp [noAdjWs, headNotWs_collapse_true, ih true, isWsChar]
    · rename_i hc
      simp [noAdjWs, hc, ih false]

theorem headNotWs_dropWhile (l : List Char) :
    headNotWs (l.dropWhile isWsChar) = true := by
  induction l with
  | nil => rfl
  | cons c rest ih =>
    by_cases hc : isWsChar c = true
    · simpa [List.dropWhile_cons, hc] using ih
    · simp [List.dropWhile_cons, hc, headNotWs]

theorem allWsSpace_dropWhile (l : List Char) (h : allWsSpace l = true) :
    allWsSpace (l.dropWhile isWsChar) = true := by
  induction l with
  | nil => rfl
  | cons c rest ih =>
    rw [allWsSpace, Bool.and_eq_true] at h
    by_cases hc : isWsChar c = true
    · simpa [List.dropWhile_cons, hc] using ih h.2
    · simpa [List.dropWhile_cons, hc, allWsSpace, h.1] using h.2

theorem noAdjWs_dropWhile (l : List Char) (h : noAdjWs l = true) :
    noAdjWs (l.dropWhile isWsChar) = true := by
  induction l with
  | nil => rfl
  | cons c rest ih =>
    rw [noAdjWs, Bool.and_eq_true] at h
    by_cases hc : isWsChar c = true
    · simpa [List.dropWhile_cons, hc] using ih h.2
    · simpa [List.dropWhile_cons, hc, noAdjWs, h.1] using h.2

theorem dropTrail_cons (c : Char) (rest : List Char) :
    dropTrailWs (c :: rest) =
      match dropTrailWs rest with
      | [] => if isWsChar c then [] else [c]
      | r => c :: r := rfl

theorem headNotWs_dropTrail (l : List Char) (h : headNotWs l = true) :
    headNotWs (dropTrailWs l) = true := by
  cases l with
  | nil => rfl
  | cons c rest =>
    rw [dropTrail_cons]
    cases hr : dropTrailWs rest with
    | nil =>
      by_cases hc : isWsChar c = true
      · simp [hc, headNotWs]
      · simpa [hc, headNotWs] using hc
    | cons x xs => exact h

theorem allWsSpace_dropTrail (l : List Char) (h : allWsSpace l = true) :
    allWsSpace (dropTrailWs l) = true := by
  induction l with
  | nil => rfl
  | cons c rest ih =>
    rw [allWsSpace, Bool.and_eq_true] at h
    rw [dropTrail_cons]
    cases hr : dropTrailWs rest with
    | nil =>
      by_cases hc : isWsChar c = true
      · simp [hc, allWsSpace]
      · simp [hc, allWsSpace, h.1]
    | cons x xs =>
      have h2 := ih h.2
      rw [hr] at h2
      show allWsSpace (c :: x :: xs) = true
      rw [allWsSpace, Bool.and_eq_true]
      exact ⟨h.1, h2⟩

theorem noAdjWs_dropTrail (l : List Char) (h : noAdjWs l = true) :
    noAdjWs (dropTrailWs l) = true := by
  induction l with
  | nil => rfl
  | cons c rest ih =>
    rw [noAdjWs, Bool.and_eq_true] at h
    rw [dropTrail_cons]
    cases hr : dropTrailWs rest with
    | nil =>
      by_cases hc : isWsChar c = true
      · simp [hc, noAdjWs]
      · simp [hc, noAdjWs, headNotWs]
    | cons x xs =>
      have h2 := ih h.2
      rw [hr] at h2
      show noAdjWs (c :: x :: xs) = true
      rw [noAdjWs, Bool.and_eq_true]
      refine ⟨?_, h2⟩
      by_cases hc : isWsChar c = true
      · have h1 : headNotWs rest = true := by simpa [hc] using h.1
        have h3 : headNotWs (x :: xs) = true := by
          have := headNotWs_dropTrail rest h1
          rwa [hr] at this
        simp [hc, h3]
      · simp [hc]

theorem lastNotWs_dropTrail (l : List Char) :
    lastNotWs (dropTrailWs l) = true := by
  induction l with
  | nil => rfl
  | cons c rest ih =>
    rw [dropTrail_cons]
    cases hr : dropTrailWs rest with
    | nil =>
      by_cases hc : isWsChar c = true
      · simp [hc, lastNotWs]
      · simpa [hc, lastNotWs] using hc
    | cons x xs =>
      rw [hr] at ih
      simpa [lastNotWs] using ih

theorem cleanWs_allWsSpace (l : List Char) : allWsSpace (cleanWs l) = true :=
  allWsSpace_dropTrail _ (allWsSpace_dropWhile _ (allWsSpace_collapse false l))

theorem cleanWs_noAdjWs (l : List Char) : noAdjWs (cleanWs l) = true :=
  noAdjWs_dropTrail _ (noAdjWs_dropWhile _ (noAdjWs_collapse false l))

theorem cleanWs_headNotWs (l : List Char) : headNotWs (cleanWs l) = true :=
  headNotWs_dropTrail _ (headNotWs_dropWhile _)

theorem cleanWs_lastNotWs (l : List Char) : lastNotWs (cleanWs l) = true :=
  lastNotWs_dropTrail _

theorem collapse_id (l : List Char) (ha : allWsSpace l = true) (hn : noAdjWs l = true) :
    collapseWsAux false l = l ∧ (headNotWs l = true → collapseWsAux true l = l) := by
  induction l with
  | nil => exact ⟨rfl, fun _ => rfl⟩
  | cons c rest ih =>
    rw [allWsSpace, Bool.and_eq_true] at ha
    rw [noAdjWs, Bool.and_eq_true] at hn
    obtain ⟨ihf, iht⟩ := ih ha.2 hn.2
    by_cases hc : isWsChar c = true
    · have hsp : c = ' ' := by
        have := ha.1
        simp [hc] at this
        exact this
      have hrest : headNotWs rest = true := by simpa [hc] using hn.1
      constructor
      · simp only [collapseWsAux, hc, if_true]
        rw [iht hrest, hsp]
        simp
      · intro hh
        rw [headNotWs, hc] at hh
        simp at hh
    · constructor
      · simp only [collapseWsAux, hc]
        simp [hc, ihf]
      · intro _
        simp only [collapseWsAux, hc]
        simp [hc, ihf]

theorem dropWhile_id (l : List Char) (hh : headNotWs l = true) :
    l.dropWhile isWsChar = l := by
  cases l with
  | nil => rfl
  | cons c rest =>
    rw [headNotWs] at hh
    simp at hh
    simp [List.dropWhile_cons, hh]

theorem dropTrail_id (l : List Char) (hl : lastNotWs l = true) :
    dropTrailWs l = l := by
  induction l with
  | nil => rfl
  | cons c rest ih =>
    cases rest with
    | nil =>
      rw [lastNotWs] at hl
      simp at hl
      simp [dropTrailWs, hl]
    | cons x xs =>
      have h2 := ih hl
      rw [dropTrail_cons, h2]

theorem cleanWs_id (l : List Char) (ha : allWsSpace l = true) (hn : noAdjWs l = true)
    (hh : headNotWs l = true) (hl : lastNotWs l = true) : cleanWs l = l := by
  rw [cleanWs, stripWs, (collapse_id l ha hn).1, dropWhile_id l hh, dropTrail_id l hl]

theorem cleanWs_idem (l : List Char) : cleanWs (cleanWs l) = cleanWs l :=
  cleanWs_id _ (cleanWs_allWsSpace l) (cleanWs_noAdjWs l) (cleanWs_headNotWs l)
    (cleanWs_lastNotWs l)

/-! ## Helper lemmas: rule families only append changes -/

theorem runFamily_toChanges (fam : List SubRule) (mkMsg : SubRule → String)
    (st : List Char × List String) :
    ∃ extra, (runFamily fam mkMsg st).2 = st.2 ++ extra ∧
      (extra = [] → (runFamily fam mkMsg st).1 = st.1) := by
  induction fam generalizing st with
  | nil => exact ⟨[], by simp [runFamily], fun _ => rfl⟩
  | cons r fam ih =>
    have hstep : runFamily (r :: fam) mkMsg st = runFamily fam mkMsg (applyRule mkMsg st r) :=
      rfl
    by_cases hs : rsearch r.rx st.1 = true
    · obtain ⟨e2, he2, _⟩ := ih (applyRule mkMsg st r)
      refine ⟨mkMsg r :: e2, ?_, ?_⟩
      · rw [hstep, he2]
        simp [applyRule, hs]
      · intro h
        simp at h
    · obtain ⟨e2, he2, htext⟩ := ih st
      have happ : applyRule mkMsg st r = st := by simp [applyRule, hs]
      rw [hstep, happ]
      exact ⟨e2, he2, htext⟩

theorem stepFam_toChanges (b : Bool) (fam : List SubRule) (mkMsg : SubRule → String)
    (st : List Char × List String) :
    ∃ extra, (stepFam b fam mkMsg st).2 = st.2 ++ extra ∧
      (extra = [] → (stepFam b fam mkMsg st).1 = st.1) := by
  cases b with
  | false => exact ⟨[], by simp [stepFam], fun _ => by simp [stepFam]⟩
  | true => simpa [stepFam] using runFamily_toChanges fam mkMsg st

theorem sanitizeSt_nil_changes (prompt : String) (pii sql : Bool)
    (h : (sanitizeSt prompt pii sql).2 = []) :
    (sanitizeSt prompt pii sql).1 = prompt.toList := by
  obtain ⟨e1, he1, ht1⟩ :=
    runFamily_toChanges instructionPatterns msgInstr (prompt.toList, [])
  obtain ⟨e2, he2, ht2⟩ :=
    stepFam_toChanges pii piiPatterns msgPii
      (runFamily instructionPatterns msgInstr (prompt.toList, []))
  obtain ⟨e3, he3, ht3⟩ :=
    stepFam_toChanges sql sqlPatterns msgSql
      (stepFam pii piiPatterns msgPii
        (runFamily instructionPatterns msgInstr (prompt.toList, [])))
  rw [sanitizeSt] at h ⊢
  rw [h] at he3
  have h2 : (stepFam pii piiPatterns msgPii
      (runFamily instructionPatterns msgInstr (prompt.toList, []))).2 = [] ∧ e3 = [] := by
    have := he3.symm
    exact List.append_eq_nil.mp this
  rw [h2.1] at he2
  have h1 : (runFamily instructionPatterns msgInstr (prompt.toList, [])).2 = [] ∧ e2 = [] :=
    List.append_eq_nil.mp he2.symm
  rw [h1.1] at he1
  have h0 : e1 = [] := by simpa using he1.symm
  rw [ht3 h2.2, ht2 h1.2, ht1 h0]

/-! ## Per-claim theorems and their supporting facts -/

/-- C1 (counterexample): sanitization is not idempotent and the second
change list is not always empty. On `"----"` the first call's trailing
SQL-comment rule (`--\s*$`, empty replacement) leaves `"--"`, which the
second call strips again to `""`, reporting a further change. -/
theorem sanitize_not_idempotent :
    (sanitize ((sanitize "----" true true).1) true true).1 ≠ (sanitize "----" true true).1 ∧
    (sanitize ((sanitize "----" true true).1) true true).2 ≠ [] := by
  constructor
  · decide
  · decide

/-- C1 (amended): whenever re-sanitizing already-sanitized text yields no
further changes, the string is identical — idempotence holds exactly when
the second change list is empty, which the `--\s*$` rule can violate. -/
theorem sanitize_second_pass_identity (t : String) (pii sql : Bool)
    (h : (sanitize ((sanitize t pii sql).1) pii sql).2 = []) :
    (sanitize ((sanitize t pii sql).1) pii sql).1 = (sanitize t pii sql).1 := by
  have h3 := sanitizeSt_nil_changes ((sanitize t pii sql).1) pii sql h
  show String.mk (cleanWs (sanitizeSt ((sanitize t pii sql).1) pii sql).1)
    = (sanitize t pii sql).1
  rw [h3]
  show String.mk (cleanWs (cleanWs (sanitizeSt t pii sql).1))
    = String.mk (cleanWs (sanitizeSt t pii sql).1)
  rw [cleanWs_idem]

theorem sanitize_second_pass_identity_witness :
    (sanitize ((sanitize "hello" true true).1) true true).2 = [] ∧
    (sanitize ((sanitize "hello" true true).1) true true).1 = (sanitize "hello" true true).1 :=
  ⟨by decide, sanitize_second_pass_identity "hello" true true (by decide)⟩

/-- C10: for every input and toggle setting the returned string is
whitespace-normal — every whitespace character is a single plain space
with no whitespace run and no leading or trailing whitespace — even when
no rewrite rule matched; and on `"a  b"` the sanitizer returns the
different string `"a b"` with an empty change list, so an empty change
list does not imply the text is unchanged. -/
theorem sanitize_output_whitespace_normalized :
    (∀ (t : String) (pii sql : Bool),
        allWsSpace ((sanitize t pii sql).1.toList) = true ∧
        noAdjWs ((sanitize t pii sql).1.toList) = true ∧
        headNotWs ((sanitize t pii sql).1.toList) = true ∧
        lastNotWs ((sanitize t pii sql).1.toList) = true) ∧
    sanitize "a  b" true true = ("a b", []) ∧
    ("a  b" : String) ≠ "a b" := by
  refine ⟨fun t pii sql => ⟨?_, ?_, ?_, ?_⟩, by decide, by decide⟩
  · exact cleanWs_allWsSpace _
  · exact cleanWs_noAdjWs _
  · exact cleanWs_headNotWs _
  · exact cleanWs_lastNotWs _

/-- C2 (counterexample): when no rule matches, the synthetic default's
reason text is "No policy matched - default allow", not the claimed
"no policy matched". -/
theorem evaluate_default_reason_counterexample :
    (evaluate [] d0).reason = "No policy matched - default allow" ∧
    (evaluate [] d0).reason ≠ "no policy matched" := by
  constructor
  · rfl
  · decide

/-- C2 (amended): policy evaluation is first-match-wins — the earliest
matching rule's `RuleMatch` is returned whatever later rules would do —
and with no matching rule the synthetic default match is returned, with
action allow, severity safe and reason "No policy matched - default
allow". -/
theorem evaluate_first_match_wins :
    (∀ (pre rest : List Policy) (p : Policy) (d : DetectionResult),
        (∀ q ∈ pre, q.matchesD d = false) → p.matchesD d = true →
        evaluate (pre ++ p :: rest) d = p.toMatch d) ∧
    (∀ (ps : List Policy) (d : DetectionResult),
        (∀ q ∈ ps, q.matchesD d = false) → evaluate ps d = defaultAllowMatch) ∧
    defaultAllowMatch.action = Act.allow ∧
    defaultAllowMatch.severity = ThreatLevel.safe ∧
    defaultAllowMatch.reason = "No policy matched - default allow" := by
  refine ⟨?_, ?_, rfl, rfl, rfl⟩
  · intro pre rest p d hpre hp
    induction pre with
    | nil => simp [evaluate, List.find?, hp]
    | cons q pre ih =>
      have hq : q.matchesD d = false := hpre q (by simp)
      have hrest : ∀ x ∈ pre, x.matchesD d = false := fun x hx => hpre x (by simp [hx])
      simpa [evaluate, List.find?, hq] using ih hrest
  · intro ps d hall
    have hnone : ps.find? (fun p => p.matchesD d) = none := by
      rw [List.find?_eq_none]
      intro x hx
      simp [hall x hx]
    simp [evaluate, hnone]

theorem evaluate_first_match_wins_witness :
    (∀ q ∈ [pOff], q.matchesD d0 = false) ∧ pFirst.matchesD d0 = true ∧
    evaluate ([pOff] ++ pFirst :: [pSecond]) d0 = pFirst.toMatch d0 :=
  ⟨by decide, by decide,
    evaluate_first_match_wins.1 [pOff] [pSecond] pFirst d0 (by decide) (by decide)⟩

/-- C3 (counterexample): at the exact breakpoints the code maps score 80
to critical (the claim says high) and 79.999 to high (the claim says
medium). -/
theorem severity_boundary_counterexample :
    threatLevelOfScore 80 = ThreatLevel.critical ∧
    threatLevelOfScore 80 ≠ ThreatLevel.high ∧
    threatLevelOfScore (79999/1000) = ThreatLevel.high ∧
    threatLevelOfScore (79999/1000) ≠ ThreatLevel.medium := by
  refine ⟨by decide, by decide, by decide, by decide⟩

theorem threatLevelOfScore_eq_iff (q : ℚ) :
    (threatLevelOfScore q = ThreatLevel.critical ↔ 80 ≤ q) ∧
    (threatLevelOfScore q = ThreatLevel.high ↔ 60 ≤ q ∧ q < 80) ∧
    (threatLevelOfScore q = ThreatLevel.medium ↔ 40 ≤ q ∧ q < 60) ∧
    (threatLevelOfScore q = ThreatLevel.low ↔ 20 ≤ q ∧ q < 40) ∧
    (threatLevelOfScore q = ThreatLevel.safe ↔ q < 20) := by
  unfold threatLevelOfScore
  split_ifs with h1 h2 h3 h4
  · exact ⟨⟨fun _ => h1, fun _ => rfl⟩,
      ⟨False.elim, fun h => absurd h.2 (not_lt.mpr h1)⟩,
      ⟨False.elim, fun h => absurd h.2 (not_lt.mpr (by linarith))⟩,
      ⟨False.elim, fun h => absurd h.2 (not_lt.mpr (by linarith))⟩,
      ⟨False.elim, fun h => absurd h (not_lt.mpr (by linarith))⟩⟩
  · exact ⟨⟨False.elim, fun h => absurd h h1⟩,
      ⟨fun _ => ⟨h2, not_le.mp h1⟩, fun _ => rfl⟩,
      ⟨False.elim, fun h => absurd h.2 (not_lt.mpr h2)⟩,
      ⟨False.elim, fun h => absurd h.2 (not_lt.mpr (by linarith))⟩,
      ⟨False.elim, fun h => absurd h (not_lt.mpr (by linarith))⟩⟩
  · exact ⟨⟨False.elim, fun h => absurd h h1⟩,
      ⟨False.elim, fun h => absurd h.1 h2⟩,
      ⟨fun _ => ⟨h3, not_le.mp h2⟩, fun _ => rfl⟩,
      ⟨False.elim, fun h => absurd h.2 (not_lt.mpr h3)⟩,
      ⟨False.elim, fun h => absurd h (not_lt.mpr (by linarith))⟩⟩
  · exact ⟨⟨False.elim, fun h => absurd h h1⟩,
      ⟨False.elim, fun h => absurd h.1 h2⟩,
      ⟨False.elim, fun h => absurd h.1 h3⟩,
      ⟨fun _ => ⟨h4, not_le.mp h3⟩, fun _ => rfl⟩,
      ⟨False.elim, fun h => absurd h (not_lt.mpr h4)⟩⟩
  · exact ⟨⟨False.elim, fun h => absurd h h1⟩,
      ⟨False.elim, fun h => absurd h.1 h2⟩,
      ⟨False.elim, fun h => absurd h.1 h3⟩,
      ⟨False.elim, fun h => absurd h.1 h4⟩,
      ⟨fun _ => not_le.mp h4, fun _ => rfl⟩⟩

/-- C3 (amended): the severity tier of a pattern-detection result is a
deterministic step function of the risk score with breakpoints
20/40/60/80, each tier owning the left-closed interval, so the exact
boundaries are: 40 → medium, 39.999 → low, 80 → critical, 79.999 → high. -/
theorem severity_step_function :
    (∀ t, (detectWithPatterns t).threat_level =
        threatLevelOfScore (detectWithPatterns t).threat_score) ∧
    (∀ q : ℚ,
        (threatLevelOfScore q = ThreatLevel.critical ↔ 80 ≤ q) ∧
        (threatLevelOfScore q = ThreatLevel.high ↔ 60 ≤ q ∧ q < 80) ∧
        (threatLevelOfScore q = ThreatLevel.medium ↔ 40 ≤ q ∧ q < 60) ∧
        (threatLevelOfScore q = ThreatLevel.low ↔ 20 ≤ q ∧ q < 40) ∧
        (threatLevelOfScore q = ThreatLevel.safe ↔ q < 20)) ∧
    threatLevelOfScore 40 = ThreatLevel.medium ∧
    threatLevelOfScore (39999/1000) = ThreatLevel.low ∧
    threatLevelOfScore 80 = ThreatLevel.critical ∧
    threatLevelOfScore (79999/1000) = ThreatLevel.high := by
  exact ⟨fun t => rfl, threatLevelOfScore_eq_iff, by decide, by decide, by decide, by decide⟩

theorem severity_step_function_witness :
    threatLevelOfScore 50 = ThreatLevel.medium :=
  ((severity_step_function.2.1 50).2.2.1).mpr (by norm_num)

/-- C6: the lexical strategy counts how many of the fixed adversarial
phrases occur in the lower-cased text, scores 20 per matched phrase
clamped to [0,100], and flags exactly when the score reaches 40. -/
theorem detector_lexical_spec :
    ∀ t : String,
      (detectWithPatterns t).threat_score = min ((patternMatchCount t : ℚ) * 20) 100 ∧
      0 ≤ (detectWithPatterns t).threat_score ∧
      (detectWithPatterns t).threat_score ≤ 100 ∧
      ((detectWithPatterns t).is_malicious = true ↔ 40 ≤ (detectWithPatterns t).threat_score) := by
  intro t
  refine ⟨rfl, ?_, ?_, ?_⟩
  · show (0 : ℚ) ≤ min ((patternMatchCount t : ℚ) * 20) 100
    refine le_min (by positivity) (by norm_num)
  · exact min_le_right _ _
  · exact decide_eq_true_iff

theorem detector_lexical_spec_witness :
    (detectWithPatterns "disregard jailbreak").is_malicious = true :=
  ((detector_lexical_spec "disregard jailbreak").2.2.2).mpr (by decide)

/-- C4 (counterexample): a verdict produced by `check` can have action
sanitize with an *empty* sanitized prompt: under a sanitize-everything
policy, `check` on `"--"` returns action sanitize and
`sanitized_prompt = some ""`. -/
theorem check_sanitize_empty_output :
    (check [pSanAll] "--").action = Act.sanitize ∧
    (check [pSanAll] "--").sanitized_prompt = some "" := by
  constructor
  · decide
  · decide

/-- C4 (amended): every verdict's action is one of allow/block/sanitize
(hence one of the five actions), `allowed` is false iff the action is
block, and `sanitized_prompt` is *present* (not None, possibly empty) iff
the action is sanitize. -/
theorem execute_action_invariants :
    ∀ (req : FirewallRequest) (det : DetectionResult) (pm : PolicyMatch),
      ((executeAction req det pm).action = Act.allow ∨
        (executeAction req det pm).action = Act.block ∨
        (executeAction req det pm).action = Act.sanitize) ∧
      ((executeAction req det pm).allowed = false ↔
        (executeAction req det pm).action = Act.block) ∧
      ((executeAction req det pm).sanitized_prompt ≠ none ↔
        (executeAction req det pm).action = Act.sanitize) := by
  intro req det pm
  unfold executeAction
  split_ifs with h1 h2 <;> simp

theorem execute_action_invariants_witness :
    (executeAction ceReq d0 cePmBlock).allowed = false :=
  (execute_action_invariants ceReq d0 cePmBlock).2.1.mpr (by decide)

/-- C7 (counterexample): on `"disregard jailbreak"` the default policy
set decides action log, but the verdict built by `check` records action
allow — the policy decision's action is not carried into the verdict for
log (and alert). -/
theorem check_log_action_collapsed :
    (evaluate defaultPolicies (detectWithPatterns "disregard jailbreak")).action = Act.log ∧
    (check defaultPolicies "disregard jailbreak").action = Act.allow ∧
    Act.allow ≠ Act.log := by
  refine ⟨by decide, by decide, by decide⟩

/-- C7 (amended): for a policy decision with action allow, log or alert,
the verdict has `allowed = true`, no sanitized text, and action *allow* —
log and alert are collapsed to allow; the original action survives only
in the attached policy match. -/
theorem allow_log_alert_execute (req : FirewallRequest) (det : DetectionResult)
    (pm : PolicyMatch)
    (h : pm.action = Act.allow ∨ pm.action = Act.log ∨ pm.action = Act.alert) :
    (executeAction req det pm).allowed = true ∧
    (executeAction req det pm).sanitized_prompt = none ∧
    (executeAction req det pm).action = Act.allow := by
  have hb : ¬ pm.action = Act.block := by rcases h with h | h | h <;> simp [h]
  have hs : ¬ pm.action = Act.sanitize := by rcases h with h | h | h <;> simp [h]
  unfold executeAction
  simp [hb, hs]

theorem allow_log_alert_execute_witness :
    (executeAction ceReq d0 cePmAlert).allowed = true ∧
    (executeAction ceReq d0 cePmAlert).sanitized_prompt = none ∧
    (executeAction ceReq d0 cePmAlert).action = Act.allow :=
  allow_log_alert_execute ceReq d0 cePmAlert (by decide)

/-- C5 (counterexample): a failed load does not retain the previously
active rule set — a custom active set is replaced by the built-in
defaults. -/
theorem load_failure_discards_previous :
    loadPolicies [cePolicyCustom] none ≠ [cePolicyCustom] ∧
    loadPolicies [cePolicyCustom] none = defaultPolicies := by
  constructor
  · decide
  · rfl

/-- C5 (amended): on any load failure (unreadable source or a malformed
entry) the active rule set becomes exactly the built-in four-rule default
— block critical at 0.85, sanitize high at 0.65, log medium at 0.40,
allow safe at 0.0, in that order — regardless of what was active before;
the result never depends on the previous set, so no half-updated set can
remain active. -/
theorem load_failure_installs_defaults :
    (∀ (prev : List Policy) (src : Option (List PolicyConfig)),
        loadFails src = true → loadPolicies prev src = defaultPolicies) ∧
    (∀ (prev1 prev2 : List Policy) (src : Option (List PolicyConfig)),
        loadPolicies prev1 src = loadPolicies prev2 src) := by
  constructor
  · intro prev src h
    cases src with
    | none => rfl
    | some cfgs =>
      cases hc : policiesOfConfigs cfgs with
      | none => simp [loadPolicies, hc]
      | some ps =>
        rw [loadFails, hc] at h
        simp at h
  · intro p1 p2 src
    cases src <;> rfl

theorem load_failure_installs_defaults_witness :
    loadFails (some [ceBadConfig]) = true ∧
    loadPolicies [cePolicyCustom] (some [ceBadConfig]) = defaultPolicies :=
  ⟨by decide, load_failure_installs_defaults.1 [cePolicyCustom] (some [ceBadConfig]) (by decide)⟩

/-- C8 (counterexample): recording a verdict whose action is log
increments none of blocked/sanitized/allowed, so "exactly one of the
three is incremented" fails for log (and alert) verdicts. -/
theorem log_request_log_counterexample :
    (logRequest initialLogger ceReq ceRespLog).stats.blocked = 0 ∧
    (logRequest initialLogger ceReq ceRespLog).stats.sanitized = 0 ∧
    (logRequest initialLogger ceReq ceRespLog).stats.allowed = 0 ∧
    (logRequest initialLogger ceReq ceRespLog).stats.total_requests = 1 ∧
    (logRequest initialLogger ceReq ceRespLog).auditRecords.length = 1 := by
  refine ⟨rfl, rfl, rfl, rfl, rfl⟩

/-- C8 (amended): one `log_request` call appends exactly one audit
record, increments total by one, increments each of blocked/sanitized/
allowed exactly when the action is block/sanitize/allow, and increments
the flagged-threat counter iff the severity is high or critical; so
exactly one of the three action counters moves for allow/block/sanitize
verdicts and none for log/alert verdicts. -/
theorem log_request_spec :
    ∀ (st : LoggerState) (req : FirewallRequest) (resp : FirewallResponse),
      (logRequest st req resp).auditRecords.length = st.auditRecords.length + 1 ∧
      (logRequest st req resp).stats.total_requests = st.stats.total_requests + 1 ∧
      (logRequest st req resp).stats.blocked
        = st.stats.blocked + (if resp.action = Act.block then 1 else 0) ∧
      (logRequest st req resp).stats.sanitized
        = st.stats.sanitized + (if resp.action = Act.sanitize then 1 else 0) ∧
      (logRequest st req resp).stats.allowed
        = st.stats.allowed + (if resp.action = Act.allow then 1 else 0) ∧
      (logRequest st req resp).stats.threats_detected
        = st.stats.threats_detected +
          (if resp.threat_level = ThreatLevel.high ∨ resp.threat_level = ThreatLevel.critical
            then 1 else 0) ∧
      ((resp.action = Act.allow ∨ resp.action = Act.block ∨ resp.action = Act.sanitize) →
        (logRequest st req resp).stats.blocked + (logRequest st req resp).stats.sanitized
            + (logRequest st req resp).stats.allowed
          = st.stats.blocked + st.stats.sanitized + st.stats.allowed + 1) ∧
      ((resp.action = Act.log ∨ resp.action = Act.alert) →
        (logRequest st req resp).stats.blocked + (logRequest st req resp).stats.sanitized
            + (logRequest st req resp).stats.allowed
          = st.stats.blocked + st.stats.sanitized + st.stats.allowed) := by
  intro st req resp
  cases hA : resp.action <;> cases hL : resp.threat_level <;>
    simp [logRequest, hA, hL] <;> omega

theorem log_request_spec_witness :
    (logRequest initialLogger ceReq ceRespLog).stats.blocked
        + (logRequest initialLogger ceReq ceRespLog).stats.sanitized
        + (logRequest initialLogger ceReq ceRespLog).stats.allowed
      = initialLogger.stats.blocked + initialLogger.stats.sanitized
        + initialLogger.stats.allowed :=
  (log_request_spec initialLogger ceReq ceRespLog).2.2.2.2.2.2.2 (Or.inl rfl)

theorem logRequest_statsInv (st : LoggerState) (req : FirewallRequest)
    (resp : FirewallResponse) (h : statsInv st) : statsInv (logRequest st req resp) := by
  unfold statsInv at *
  cases hA : resp.action <;> cases hL : resp.threat_level <;>
    simp [logRequest, hA, hL] <;> omega

theorem runLog_aux_inv (pairs : List (FirewallRequest × FirewallResponse)) :
    ∀ st, statsInv st →
      statsInv (pairs.foldl (fun st rr => logRequest st rr.1 rr.2) st) := by
  induction pairs with
  | nil => intro st h; exact h
  | cons p ps ih =>
    intro st h
    exact ih _ (logRequest_statsInv st p.1 p.2 h)

/-- C9: for any recorded sequence, blocked + sanitized + allowed never
exceeds total_requests, and all three derived rates are 0 when
total_requests is 0. -/
theorem stats_consistency :
    ∀ pairs : List (FirewallRequest × FirewallResponse),
      (runLog pairs).stats.blocked + (runLog pairs).stats.sanitized
          + (runLog pairs).stats.allowed ≤ (runLog pairs).stats.total_requests ∧
      ((runLog pairs).stats.total_requests = 0 →
        (getStats (runLog pairs)).block_rate = 0 ∧
        (getStats (runLog pairs)).sanitize_rate = 0 ∧
        (getStats (runLog pairs)).threat_rate = 0) := by
  intro pairs
  constructor
  · exact runLog_aux_inv pairs initialLogger (by simp [statsInv, initialLogger])
  · intro h
    refine ⟨?_, ?_, ?_⟩ <;> simp [getStats, h]

theorem stats_consistency_witness :
    (getStats (runLog [])).block_rate = 0 ∧ (getStats (runLog [])).sanitize_rate = 0 ∧
    (getStats (runLog [])).threat_rate = 0 :=
  (stats_consistency []).2 rfl

end Firewall
